import Mathlib

/-!
Shallow embedding of the LLGL Vulkan device / swap-chain layer
(`VKDevice.cpp`, `VKRenderContext.cpp`) and of the D3D12 compute-PSO
constructor (`D3D12ComputePSO.cpp`), together with proofs of the
stated properties of those routines.
-/

namespace LLGL

/-! ## Vulkan image layouts (`VkImageLayout`) -/

/-- The `VkImageLayout` values relevant to the embedded code. -/
inductive VkImageLayout where
  | undefined
  | general
  | colorAttachmentOptimal
  | depthStencilAttachmentOptimal
  | depthStencilReadOnlyOptimal
  | shaderReadOnlyOptimal
  | transferSrcOptimal
  | transferDstOptimal
  | preinitialized
  | presentSrcKHR
  deriving DecidableEq, Repr, Fintype

/-! Access-mask and pipeline-stage bit constants, with the numeric values
of the Vulkan headers. -/

def VK_ACCESS_TRANSFER_READ_BIT : Nat := 0x00000800
def VK_ACCESS_TRANSFER_WRITE_BIT : Nat := 0x00001000
def VK_ACCESS_SHADER_READ_BIT : Nat := 0x00000020

def VK_PIPELINE_STAGE_TOP_OF_PIPE_BIT : Nat := 0x00000001
def VK_PIPELINE_STAGE_FRAGMENT_SHADER_BIT : Nat := 0x00000080
def VK_PIPELINE_STAGE_TRANSFER_BIT : Nat := 0x00001000
def VK_PIPELINE_STAGE_BOTTOM_OF_PIPE_BIT : Nat := 0x00002000

/-- The access masks and stage masks chosen by a layout transition:
`srcAccessMask`, `dstAccessMask`, `srcStageMask`, `dstStageMask`. -/
structure TransitionMasks where
  srcAccessMask : Nat
  dstAccessMask : Nat
  srcStageMask : Nat
  dstStageMask : Nat
  deriving DecidableEq, Repr

/-- Embeds the mask-selection logic of `VKDevice::TransitionImageLayout`
(VKDevice.cpp:214-250): the barrier starts with both access masks `0` and
the stage masks default to top-of-pipe/bottom-of-pipe; only the two
recognized `(oldLayout, newLayout)` pairs overwrite them. -/
def transitionImageLayoutMasks (oldLayout newLayout : VkImageLayout) : TransitionMasks :=
  if oldLayout = .undefined ∧ newLayout = .transferDstOptimal then
    { srcAccessMask := 0
      dstAccessMask := VK_ACCESS_TRANSFER_WRITE_BIT
      srcStageMask := VK_PIPELINE_STAGE_TOP_OF_PIPE_BIT
      dstStageMask := VK_PIPELINE_STAGE_TRANSFER_BIT }
  else if oldLayout = .transferDstOptimal ∧ newLayout = .shaderReadOnlyOptimal then
    { srcAccessMask := VK_ACCESS_TRANSFER_WRITE_BIT
      dstAccessMask := VK_ACCESS_SHADER_READ_BIT
      srcStageMask := VK_PIPELINE_STAGE_TRANSFER_BIT
      dstStageMask := VK_PIPELINE_STAGE_FRAGMENT_SHADER_BIT }
  else
    { srcAccessMask := 0
      dstAccessMask := 0
      srcStageMask := VK_PIPELINE_STAGE_TOP_OF_PIPE_BIT
      dstStageMask := VK_PIPELINE_STAGE_BOTTOM_OF_PIPE_BIT }

/-! ## Texture subresources and extents -/

/-- `LLGL::TextureSubresource`, with the field order used at the
construction sites in VKDevice.cpp. -/
structure TextureSubresource where
  baseArrayLayer : Nat
  numArrayLayers : Nat
  baseMipLevel : Nat
  numMipLevels : Nat
  deriving DecidableEq, Repr

/-- `VkExtent3D` with `Nat` components (the C++ fields are `uint32_t`;
the arithmetic performed on them, `max 1 (x / 2)`, never overflows). -/
structure VkExtent3D where
  width : Nat
  height : Nat
  depth : Nat
  deriving DecidableEq, Repr

/-- One halving step of `VKDevice::GenerateMips` (VKDevice.cpp:470-474):
`nextExtent.d = std::max(1u, currExtent.d / 2)` per dimension. -/
def nextMipExtent (currExtent : VkExtent3D) : VkExtent3D :=
  { width := max 1 (currExtent.width / 2)
    height := max 1 (currExtent.height / 2)
    depth := max 1 (currExtent.depth / 2) }

/-- Extent of mip level `i` in the chain `GenerateMips` computes:
level 0 is the input extent, and each further level is obtained by
`nextMipExtent` from the previous one (the loop threads `currExtent`). -/
def mipLevelExtent (extent : VkExtent3D) : Nat → VkExtent3D
  | 0 => extent
  | i + 1 => nextMipExtent (mipLevelExtent extent i)

/-! ## The command trace of `VKDevice::GenerateMips` -/

/-- Commands recorded by `GenerateMips`: pipeline barriers (with the layout
pair and the single-subresource range fields the code writes into the
barrier) and image blits (with the source/destination mip level, array
layer and extent). -/
inductive MipCmd where
  | barrier (oldLayout newLayout : VkImageLayout)
      (baseMipLevel levelCount baseArrayLayer layerCount : Nat)
  | blit (srcMipLevel srcArrayLayer : Nat) (srcExtent : VkExtent3D)
      (dstMipLevel dstArrayLayer : Nat) (dstExtent : VkExtent3D)
  deriving DecidableEq, Repr

/-- The inner loop of `GenerateMips` (VKDevice.cpp:467-536) for one array
layer: for each `mipLevel` from 1 to `numMipLevels - 1` it records the
transfer-dst → transfer-src barrier on the previous level, the blit of the
previous level into the current one at the halved extent, and the
transfer-src → shader-read-only barrier on the previous level; `remaining`
counts the iterations still to run. -/
def genMipsBlitSteps (sub : TextureSubresource) (arrayLayer : Nat)
    (currExtent : VkExtent3D) (mipLevel remaining : Nat) : List MipCmd :=
  match remaining with
  | 0 => []
  | r + 1 =>
    let nextExtent := nextMipExtent currExtent
    .barrier .transferDstOptimal .transferSrcOptimal
        (sub.baseMipLevel + mipLevel - 1) 1 (sub.baseArrayLayer + arrayLayer) 1
      :: .blit (sub.baseMipLevel + mipLevel - 1) (sub.baseArrayLayer + arrayLayer) currExtent
        (sub.baseMipLevel + mipLevel) (sub.baseArrayLayer + arrayLayer) nextExtent
      :: .barrier .transferSrcOptimal .shaderReadOnlyOptimal
        (sub.baseMipLevel + mipLevel - 1) 1 (sub.baseArrayLayer + arrayLayer) 1
      :: genMipsBlitSteps sub arrayLayer nextExtent (mipLevel + 1) r

/-- One array-layer iteration of `GenerateMips` (VKDevice.cpp:463-552):
the blit chain followed by the final transfer-dst → shader-read-only
barrier, whose `baseMipLevel` the code sets to `subresource.numMipLevels - 1`
(VKDevice.cpp:543). Its `baseArrayLayer` is whatever the mutable barrier
struct last held: `baseArrayLayer + arrayLayer` if the inner loop ran at
least once, else the initial `baseArrayLayer` (VKDevice.cpp:459,482). -/
def genMipsLayerCmds (sub : TextureSubresource) (extent : VkExtent3D)
    (arrayLayer : Nat) : List MipCmd :=
  genMipsBlitSteps sub arrayLayer extent 1 (sub.numMipLevels - 1)
    ++ [ .barrier .transferDstOptimal .shaderReadOnlyOptimal
          (sub.numMipLevels - 1) 1
          (if 1 < sub.numMipLevels then sub.baseArrayLayer + arrayLayer
           else sub.baseArrayLayer) 1 ]

/-- Full trace of `VKDevice::GenerateMips` (VKDevice.cpp:426-553): the
initial shader-read-only → transfer-dst transition of the whole
subresource range, then the per-layer chains in layer order. -/
def generateMipsCmds (extent : VkExtent3D) (sub : TextureSubresource) : List MipCmd :=
  .barrier .shaderReadOnlyOptimal .transferDstOptimal
      sub.baseMipLevel sub.numMipLevels sub.baseArrayLayer sub.numArrayLayers
    :: (List.range sub.numArrayLayers).flatMap (fun arrayLayer => genMipsLayerCmds sub extent arrayLayer)

/-! ## Copy/resolve bracketing (`VKDevice::CopyImage`, `VKDevice::ResolveImage`) -/

/-- `VkOffset3D`. -/
structure VkOffset3D where
  x : Int
  y : Int
  z : Int
  deriving DecidableEq, Repr

/-- `VkImageSubresourceLayers` (aspect mask omitted; it is derived from the
format and plays no role in the embedded logic). -/
structure VkImageSubresourceLayers where
  mipLevel : Nat
  baseArrayLayer : Nat
  layerCount : Nat
  deriving DecidableEq, Repr

/-- `VkImageCopy` and `VkImageResolve` share this field layout. -/
structure VkImageCopy where
  srcSubresource : VkImageSubresourceLayers
  srcOffset : VkOffset3D
  dstSubresource : VkImageSubresourceLayers
  dstOffset : VkOffset3D
  extent : VkExtent3D
  deriving DecidableEq, Repr

/-- The `TextureSubresource` built from a region's subresource layers at
VKDevice.cpp:313-314 and 334-335:
`{ baseArrayLayer, layerCount, mipLevel, 1u }`. -/
def layersToSubresource (s : VkImageSubresourceLayers) : TextureSubresource :=
  { baseArrayLayer := s.baseArrayLayer
    numArrayLayers := s.layerCount
    baseMipLevel := s.mipLevel
    numMipLevels := 1 }

/-- Commands recorded by `CopyImage` / `ResolveImage`; images are
identified by an abstract handle. -/
inductive DeviceCmd where
  | transition (image : Nat) (oldLayout newLayout : VkImageLayout)
      (subresource : TextureSubresource)
  | copyImage (srcImage dstImage : Nat) (region : VkImageCopy)
  | resolveImage (srcImage dstImage : Nat) (region : VkImageCopy)
  deriving DecidableEq, Repr

/-- Command trace of `VKDevice::CopyImage` (VKDevice.cpp:304-323):
transition source to transfer-src and destination to transfer-dst, copy,
then transition both back to the caller-specified layouts. -/
def copyImageCmds (srcImage : Nat) (srcImageLayout : VkImageLayout)
    (dstImage : Nat) (dstImageLayout : VkImageLayout)
    (region : VkImageCopy) : List DeviceCmd :=
  let srcImageSubresource := layersToSubresource region.srcSubresource
  let dstImageSubresource := layersToSubresource region.dstSubresource
  [ .transition srcImage srcImageLayout .transferSrcOptimal srcImageSubresource,
    .transition dstImage dstImageLayout .transferDstOptimal dstImageSubresource,
    .copyImage srcImage dstImage region,
    .transition srcImage .transferSrcOptimal srcImageLayout srcImageSubresource,
    .transition dstImage .transferDstOptimal dstImageLayout dstImageSubresource ]

/-- Command trace of `VKDevice::ResolveImage` (VKDevice.cpp:325-344); the
bracketing is identical to `CopyImage` with the native resolve in the
middle. -/
def resolveImageCmds (srcImage : Nat) (srcImageLayout : VkImageLayout)
    (dstImage : Nat) (dstImageLayout : VkImageLayout)
    (region : VkImageCopy) : List DeviceCmd :=
  let srcImageSubresource := layersToSubresource region.srcSubresource
  let dstImageSubresource := layersToSubresource region.dstSubresource
  [ .transition srcImage srcImageLayout .transferSrcOptimal srcImageSubresource,
    .transition dstImage dstImageLayout .transferDstOptimal dstImageSubresource,
    .resolveImage srcImage dstImage region,
    .transition srcImage .transferSrcOptimal srcImageLayout srcImageSubresource,
    .transition dstImage .transferDstOptimal dstImageLayout dstImageSubresource ]

/-- Layout tracking: a transition leaves the image in its new layout;
copies and resolves do not change layouts. -/
def applyDeviceCmd (layouts : Nat → VkImageLayout) : DeviceCmd → (Nat → VkImageLayout)
  | .transition image _ newLayout _ => fun i => if i = image then newLayout else layouts i
  | .copyImage _ _ _ => layouts
  | .resolveImage _ _ _ => layouts

def applyDeviceCmds (layouts : Nat → VkImageLayout) (cmds : List DeviceCmd) :
    Nat → VkImageLayout :=
  cmds.foldl applyDeviceCmd layouts

/-! ## Swap-chain buffer-count selection (`VKRenderContext::PickSwapChainSize`) -/

/-- Embeds `VKRenderContext::PickSwapChainSize` (VKRenderContext.cpp:563-566):
`std::max(minImageCount, std::min(swapBuffers, maxImageCount))`. -/
def pickSwapChainSize (minImageCount maxImageCount swapBuffers : Nat) : Nat :=
  max minImageCount (min swapBuffers maxImageCount)

/-! ## Resize (`VKRenderContext::ResizeBuffersPrimary`) -/

/-- `LLGL::Extent2D`. -/
structure Extent2D where
  width : Nat
  height : Nat
  deriving DecidableEq, Repr

/-- The side effects `ResizeBuffersPrimary` can perform, in the order the
code issues them. -/
inductive ResizeAction where
  | queueWaitIdle
  | createPresentSemaphores
  | createGpuSurface
  | releaseRenderBuffers
  | createResolutionDependentResources (resolution : Extent2D)
  deriving DecidableEq, Repr

/-- Embeds `VKRenderContext::ResizeBuffersPrimary`
(VKRenderContext.cpp:181-199): destruction/recreation runs only when the
requested resolution differs from the current swap-chain extent in width
or height; the function always returns `true`. -/
def resizeBuffersPrimary (swapChainExtent resolution : Extent2D) :
    List ResizeAction × Bool :=
  if swapChainExtent.width ≠ resolution.width ∨
     swapChainExtent.height ≠ resolution.height then
    ( [ .queueWaitIdle,
        .createPresentSemaphores,
        .createGpuSurface,
        .releaseRenderBuffers,
        .createResolutionDependentResources resolution ],
      true )
  else
    ([], true)

/-! ## Presentation (`VKRenderContext::Present`) -/

/-- The two presentation semaphores of `VKRenderContext`. -/
inductive VKSemaphore where
  | imageAvailable
  | renderFinished
  deriving DecidableEq, Repr

def VK_PIPELINE_STAGE_COLOR_ATTACHMENT_OUTPUT_BIT : Nat := 0x00000400

/-- The native calls `Present` issues, with the semaphore wiring each one
receives. -/
inductive PresentStep where
  | queueSubmit (waitSemaphore : VKSemaphore) (waitStage : Nat)
      (numCommandBuffers : Nat) (signalSemaphore : VKSemaphore)
  | queuePresent (waitSemaphore : VKSemaphore) (imageIndex : Nat)
  | acquireNextImage (signalSemaphore : VKSemaphore)
  deriving DecidableEq, Repr

/-- Embeds `VKRenderContext::Present` (VKRenderContext.cpp:88-130) together
with `AcquireNextPresentImage` (VKRenderContext.cpp:568-579):
`presentImageIndex` is the stored `presentImageIndex_` on entry, and
`acquiredImageIndex` is the index `vkAcquireNextImageKHR` hands back at the
end; the result is the recorded call sequence and the stored index after
the call. -/
def vkPresent (presentImageIndex acquiredImageIndex : Nat) :
    List PresentStep × Nat :=
  ( [ .queueSubmit .imageAvailable VK_PIPELINE_STAGE_COLOR_ATTACHMENT_OUTPUT_BIT
        0 .renderFinished,
      .queuePresent .renderFinished presentImageIndex,
      .acquireNextImage .imageAvailable ],
    acquiredImageIndex )

/-! ## D3D12 compute-PSO construction (`D3D12ComputePSO::D3D12ComputePSO`) -/

/-- The part of `ComputePipelineDescriptor` the constructor inspects:
`computeShader` is a nullable pointer, embedded as an `Option` over an
abstract shader handle. -/
structure ComputePipelineDescriptor where
  computeShader : Option Nat
  deriving DecidableEq, Repr

/-- Native-object creation performed by the constructor; the flag records
whether a pipeline cache was attached to the descriptor. -/
inductive PSOAction where
  | createNativePSO (withCache : Bool)
  deriving DecidableEq, Repr

/-- Embeds `D3D12ComputePSO::D3D12ComputePSO`
(D3D12ComputePSO.cpp:24-44): a null compute shader throws
`"cannot create D3D compute pipeline without compute shader"` before any
native PSO is created; otherwise the native PSO is created, through the
pipeline cache when one is given. -/
def d3d12ComputePSOInit (desc : ComputePipelineDescriptor)
    (pipelineCache : Option Nat) : Except String (List PSOAction) :=
  match desc.computeShader with
  | none => .error "cannot create D3D compute pipeline without compute shader"
  | some _ =>
    match pipelineCache with
    | some _ => .ok [.createNativePSO true]
    | none => .ok [.createNativePSO false]

/-! ## Buffer read/write (`VKDevice::WriteBuffer`, `VKDevice::ReadBuffer`) -/

/-- `VKDeviceMemoryRegion`: offset of the sub-allocation inside its parent
chunk. -/
structure VKDeviceMemoryRegion where
  offset : Nat
  deriving DecidableEq, Repr

/-- The parent device-memory chunk: its byte content, and whether
`VKDeviceMemory::Map` yields a host pointer (a non-mappable chunk makes
`Map` return null). -/
structure VKDeviceMemory where
  mappable : Bool
  content : Nat → Nat

/-- A buffer with its optional backing memory region
(`VKDeviceBuffer::GetMemoryRegion` may be null). -/
structure VKDeviceBuffer where
  memoryRegion : Option VKDeviceMemoryRegion

/-- Embeds `VKDevice::WriteBuffer` (VKDevice.cpp:555-568): when the buffer
has a memory region and mapping succeeds, `size` bytes of `data` are
copied to the chunk at `region.offset + offset`; otherwise the chunk is
untouched. -/
def vkWriteBuffer (chunk : VKDeviceMemory) (buffer : VKDeviceBuffer)
    (data : Nat → Nat) (size offset : Nat) : VKDeviceMemory :=
  match buffer.memoryRegion with
  | none => chunk
  | some region =>
    if chunk.mappable then
      { chunk with
        content := fun a =>
          if region.offset + offset ≤ a ∧ a < region.offset + offset + size then
            data (a - (region.offset + offset))
          else
            chunk.content a }
    else
      chunk

/-- Embeds `VKDevice::ReadBuffer` (VKDevice.cpp:570-583): when the buffer
has a memory region and mapping succeeds, `size` bytes of the chunk at
`region.offset + offset` replace the front of the caller's `data`;
otherwise the caller's `data` is untouched. -/
def vkReadBuffer (chunk : VKDeviceMemory) (buffer : VKDeviceBuffer)
    (data : Nat → Nat) (size offset : Nat) : Nat → Nat :=
  match buffer.memoryRegion with
  | none => data
  | some region =>
    if chunk.mappable then
      fun a => if a < size then chunk.content (region.offset + offset + a) else data a
    else
      data

end LLGL

namespace LLGL

/-! ## Helper lemmas on the mip-extent chain -/

lemma max_one_half_max_one (v : Nat) : max 1 (max 1 v / 2) = max 1 (v / 2) := by
  rcases Nat.eq_zero_or_pos v with h | h
  · subst h; rfl
  · rw [Nat.max_eq_right h]

/-- Closed form of the extent chain: iterating `max 1 (x / 2)` equals
`max 1 (x >>> i)` whenever the base extent is at least 1 per dimension. -/
lemma mipLevelExtent_closed (W H D : Nat) (hW : 1 ≤ W) (hH : 1 ≤ H) (hD : 1 ≤ D)
    (i : Nat) :
    mipLevelExtent ⟨W, H, D⟩ i = ⟨max 1 (W >>> i), max 1 (H >>> i), max 1 (D >>> i)⟩ := by
  induction i with
  | zero =>
    simp only [mipLevelExtent, Nat.shiftRight_zero]
    rw [Nat.max_eq_right hW, Nat.max_eq_right hH, Nat.max_eq_right hD]
  | succ i ih =>
    rw [mipLevelExtent, ih, nextMipExtent]
    simp only [Nat.shiftRight_succ, VkExtent3D.mk.injEq]
    exact ⟨max_one_half_max_one _, max_one_half_max_one _, max_one_half_max_one _⟩

/-- Shifting the chain by one step. -/
lemma mipLevelExtent_nextMipExtent (e : VkExtent3D) (j : Nat) :
    mipLevelExtent (nextMipExtent e) j = mipLevelExtent e (j + 1) := by
  induction j with
  | zero => rfl
  | succ j ih => simp only [mipLevelExtent, ih]

/-- The blit loop of `GenerateMips`, written as a `range`-indexed list:
the blit for loop counter `m + j` reads the chain extent at position `j`
and writes the one at position `j + 1`. -/
lemma genMipsBlitSteps_eq (sub : TextureSubresource) (layer : Nat)
    (e : VkExtent3D) (m r : Nat) :
    genMipsBlitSteps sub layer e m r =
      (List.range r).flatMap (fun j =>
        [ .barrier .transferDstOptimal .transferSrcOptimal
            (sub.baseMipLevel + (m + j) - 1) 1 (sub.baseArrayLayer + layer) 1,
          .blit (sub.baseMipLevel + (m + j) - 1) (sub.baseArrayLayer + layer)
            (mipLevelExtent e j)
            (sub.baseMipLevel + (m + j)) (sub.baseArrayLayer + layer)
            (mipLevelExtent e (j + 1)),
          .barrier .transferSrcOptimal .shaderReadOnlyOptimal
            (sub.baseMipLevel + (m + j) - 1) 1 (sub.baseArrayLayer + layer) 1 ]) := by
  induction r generalizing e m with
  | zero => rfl
  | succ r ih =>
    rw [genMipsBlitSteps, List.range_succ_eq_map, List.flatMap_cons, ih]
    simp only [List.flatMap_map, mipLevelExtent_nextMipExtent]
    have harith : ∀ j : Nat, m + 1 + j = m + (j + 1) := by omega
    simp only [harith, Nat.add_zero]
    rfl

/-- C2: the extent `GenerateMips` computes for mip level `i` of a base
extent `(W, H, D)` with `W, H, D ≥ 1` and `i < K` equals
`(max 1 (W >>> i), max 1 (H >>> i), max 1 (D >>> i))`; in particular for
`(256, 256, 1)` the level-8 extent is `(1, 1, 1)`. -/
theorem generateMips_extent_closed_form (W H D K i : Nat)
    (hW : 1 ≤ W) (hH : 1 ≤ H) (hD : 1 ≤ D) (_hK : 1 ≤ K) (_hi : i < K) :
    mipLevelExtent ⟨W, H, D⟩ i =
      ⟨max 1 (W >>> i), max 1 (H >>> i), max 1 (D >>> i)⟩ ∧
    mipLevelExtent ⟨256, 256, 1⟩ 8 = ⟨1, 1, 1⟩ :=
  ⟨mipLevelExtent_closed W H D hW hH hD i, by decide⟩

/-- Closed witness for C2 at `(W, H, D) = (256, 256, 1)`, `K = 9`, `i = 8`. -/
theorem generateMips_extent_closed_form_witness :
    mipLevelExtent ⟨256, 256, 1⟩ 8 =
      ⟨max 1 (256 >>> 8), max 1 (256 >>> 8), max 1 (1 >>> 8)⟩ ∧
    mipLevelExtent ⟨256, 256, 1⟩ 8 = ⟨1, 1, 1⟩ :=
  generateMips_extent_closed_form 256 256 1 9 8 (by decide) (by decide) (by decide)
    (by decide) (by decide)

/-- C4 (code bug): for the subresource range with `baseMipLevel = 1` and
`numMipLevels = 2`, the final barrier of a layer's chain transitions mip
level `numMipLevels - 1 = 1` from transfer-dst to shader-read-only
(VKDevice.cpp:543 omits `baseMipLevel`), not the last generated level
`baseMipLevel + numMipLevels - 1 = 2`. -/
theorem generateMips_final_barrier_misses_baseMipLevel :
    (genMipsLayerCmds ⟨0, 1, 1, 2⟩ ⟨4, 4, 1⟩ 0).getLast? =
      some (.barrier .transferDstOptimal .shaderReadOnlyOptimal 1 1 0 1) ∧
    (1 : Nat) + 2 - 1 = 2 ∧ (1 : Nat) ≠ 2 := by
  refine ⟨?_, rfl, by decide⟩
  decide

/-- C3: `VKDevice::TransitionImageLayout` gives the two canonical pairs
(undefined → transfer-dst, transfer-dst → shader-read-only) their specific
access/stage masks, and every other pair zero access masks with
top-of-pipe → bottom-of-pipe stage masks. -/
theorem transitionImageLayoutMasks_canonical_pairs_only :
    transitionImageLayoutMasks .undefined .transferDstOptimal =
      { srcAccessMask := 0
        dstAccessMask := VK_ACCESS_TRANSFER_WRITE_BIT
        srcStageMask := VK_PIPELINE_STAGE_TOP_OF_PIPE_BIT
        dstStageMask := VK_PIPELINE_STAGE_TRANSFER_BIT } ∧
    transitionImageLayoutMasks .transferDstOptimal .shaderReadOnlyOptimal =
      { srcAccessMask := VK_ACCESS_TRANSFER_WRITE_BIT
        dstAccessMask := VK_ACCESS_SHADER_READ_BIT
        srcStageMask := VK_PIPELINE_STAGE_TRANSFER_BIT
        dstStageMask := VK_PIPELINE_STAGE_FRAGMENT_SHADER_BIT } ∧
    ∀ oldLayout newLayout : VkImageLayout,
      ¬(oldLayout = .undefined ∧ newLayout = .transferDstOptimal) →
      ¬(oldLayout = .transferDstOptimal ∧ newLayout = .shaderReadOnlyOptimal) →
      transitionImageLayoutMasks oldLayout newLayout =
        { srcAccessMask := 0
          dstAccessMask := 0
          srcStageMask := VK_PIPELINE_STAGE_TOP_OF_PIPE_BIT
          dstStageMask := VK_PIPELINE_STAGE_BOTTOM_OF_PIPE_BIT } := by
  refine ⟨rfl, rfl, ?_⟩
  intro oldLayout newLayout h1 h2
  simp only [transitionImageLayoutMasks, if_neg h1, if_neg h2]

/-- Closed witness for C3: the fallback branch at the concrete pair
(general, general). -/
theorem transitionImageLayoutMasks_canonical_pairs_only_witness :
    transitionImageLayoutMasks .general .general =
      { srcAccessMask := 0
        dstAccessMask := 0
        srcStageMask := VK_PIPELINE_STAGE_TOP_OF_PIPE_BIT
        dstStageMask := VK_PIPELINE_STAGE_BOTTOM_OF_PIPE_BIT } :=
  transitionImageLayoutMasks_canonical_pairs_only.2.2 .general .general
    (by decide) (by decide)

/-- C5: `PickSwapChainSize` clamps the requested buffer count into
`[minImageCount, maxImageCount]` whenever that interval is non-empty:
the result is in the interval, a request already inside it is returned
unchanged, and the two quoted instances hold. -/
theorem pickSwapChainSize_clamps (minC maxC n : Nat) (hle : minC ≤ maxC) :
    minC ≤ pickSwapChainSize minC maxC n ∧
    pickSwapChainSize minC maxC n ≤ maxC ∧
    (minC ≤ n → n ≤ maxC → pickSwapChainSize minC maxC n = n) ∧
    pickSwapChainSize 2 3 1 = 2 ∧
    pickSwapChainSize 2 3 10 = 3 := by
  unfold pickSwapChainSize
  refine ⟨?_, ?_, ?_, by decide, by decide⟩ <;> omega

/-- Closed witness for C5 at `minImageCount = 2`, `maxImageCount = 3`,
request `n = 2`. -/
theorem pickSwapChainSize_clamps_witness :
    2 ≤ pickSwapChainSize 2 3 2 ∧
    pickSwapChainSize 2 3 2 ≤ 3 ∧
    (2 ≤ 2 → 2 ≤ 3 → pickSwapChainSize 2 3 2 = 2) ∧
    pickSwapChainSize 2 3 1 = 2 ∧
    pickSwapChainSize 2 3 10 = 3 :=
  pickSwapChainSize_clamps 2 3 2 (by decide)

/-- C9: when the surface reports `maxImageCount = 0` (the Vulkan
"no upper limit" convention), `PickSwapChainSize` returns exactly
`minImageCount` for every request. -/
theorem pickSwapChainSize_maxZero_yields_min (minC n : Nat) :
    pickSwapChainSize minC 0 n = minC := by
  simp [pickSwapChainSize]

/-- C1: `CopyImage` and `ResolveImage` bracket the native call with
transitions of the source into transfer-src and the destination into
transfer-dst, then transition both back to the caller-specified layouts;
a layout map that assigned the source `Ls` and the destination `Ld` on
entry is therefore restored exactly after either operation. -/
theorem copy_resolve_layout_roundtrip (layouts : Nat → VkImageLayout)
    (srcImage dstImage : Nat) (srcImageLayout dstImageLayout : VkImageLayout)
    (region : VkImageCopy)
    (hs : layouts srcImage = srcImageLayout)
    (hd : layouts dstImage = dstImageLayout) :
    copyImageCmds srcImage srcImageLayout dstImage dstImageLayout region =
      [ .transition srcImage srcImageLayout .transferSrcOptimal
          (layersToSubresource region.srcSubresource),
        .transition dstImage dstImageLayout .transferDstOptimal
          (layersToSubresource region.dstSubresource),
        .copyImage srcImage dstImage region,
        .transition srcImage .transferSrcOptimal srcImageLayout
          (layersToSubresource region.srcSubresource),
        .transition dstImage .transferDstOptimal dstImageLayout
          (layersToSubresource region.dstSubresource) ] ∧
    applyDeviceCmds layouts
      (copyImageCmds srcImage srcImageLayout dstImage dstImageLayout region) =
      layouts ∧
    applyDeviceCmds layouts
      (resolveImageCmds srcImage srcImageLayout dstImage dstImageLayout region) =
      layouts := by
  refine ⟨rfl, ?_, ?_⟩ <;>
  · funext i
    simp only [applyDeviceCmds, copyImageCmds, resolveImageCmds, List.foldl,
      applyDeviceCmd]
    by_cases h1 : i = dstImage
    · subst h1; simp [hd]
    · by_cases h2 : i = srcImage
      · subst h2; simp [h1, hs]
      · simp [h1, h2]

/-- Closed witness for C1: two distinct images both in shader-read-only
layout, a trivial one-texel region. -/
theorem copy_resolve_layout_roundtrip_witness :
    copyImageCmds 0 .shaderReadOnlyOptimal 1 .colorAttachmentOptimal
      ⟨⟨0, 0, 1⟩, ⟨0, 0, 0⟩, ⟨0, 0, 1⟩, ⟨0, 0, 0⟩, ⟨1, 1, 1⟩⟩ =
      [ .transition 0 .shaderReadOnlyOptimal .transferSrcOptimal
          (layersToSubresource ⟨0, 0, 1⟩),
        .transition 1 .colorAttachmentOptimal .transferDstOptimal
          (layersToSubresource ⟨0, 0, 1⟩),
        .copyImage 0 1 ⟨⟨0, 0, 1⟩, ⟨0, 0, 0⟩, ⟨0, 0, 1⟩, ⟨0, 0, 0⟩, ⟨1, 1, 1⟩⟩,
        .transition 0 .transferSrcOptimal .shaderReadOnlyOptimal
          (layersToSubresource ⟨0, 0, 1⟩),
        .transition 1 .transferDstOptimal .colorAttachmentOptimal
          (layersToSubresource ⟨0, 0, 1⟩) ] ∧
    applyDeviceCmds
      (fun i => if i = 1 then .colorAttachmentOptimal else .shaderReadOnlyOptimal)
      (copyImageCmds 0 .shaderReadOnlyOptimal 1 .colorAttachmentOptimal
        ⟨⟨0, 0, 1⟩, ⟨0, 0, 0⟩, ⟨0, 0, 1⟩, ⟨0, 0, 0⟩, ⟨1, 1, 1⟩⟩) =
      (fun i => if i = 1 then .colorAttachmentOptimal else .shaderReadOnlyOptimal) ∧
    applyDeviceCmds
      (fun i => if i = 1 then .colorAttachmentOptimal else .shaderReadOnlyOptimal)
      (resolveImageCmds 0 .shaderReadOnlyOptimal 1 .colorAttachmentOptimal
        ⟨⟨0, 0, 1⟩, ⟨0, 0, 0⟩, ⟨0, 0, 1⟩, ⟨0, 0, 0⟩, ⟨1, 1, 1⟩⟩) =
      (fun i => if i = 1 then .colorAttachmentOptimal else .shaderReadOnlyOptimal) :=
  copy_resolve_layout_roundtrip
    (fun i => if i = 1 then .colorAttachmentOptimal else .shaderReadOnlyOptimal)
    0 1 .shaderReadOnlyOptimal .colorAttachmentOptimal
    ⟨⟨0, 0, 1⟩, ⟨0, 0, 0⟩, ⟨0, 0, 1⟩, ⟨0, 0, 0⟩, ⟨1, 1, 1⟩⟩ rfl rfl

/-- C6: resizing to the resolution already held by the swap chain performs
no action at all and returns `true`; any differing resolution triggers the
recreation sequence (still returning `true`). -/
theorem resizeBuffersPrimary_noop_on_same_resolution
    (ext res : Extent2D) (h : res = ext) :
    resizeBuffersPrimary ext res = ([], true) ∧
    ∀ res2 : Extent2D, res2 ≠ ext →
      (resizeBuffersPrimary ext res2).1 ≠ [] ∧
      (resizeBuffersPrimary ext res2).2 = true := by
  subst h
  refine ⟨by simp [resizeBuffersPrimary], ?_⟩
  intro res2 hne
  have hcomp : res.width ≠ res2.width ∨ res.height ≠ res2.height := by
    by_contra hc
    push_neg at hc
    exact hne (by cases res2; cases res; simp_all)
  simp [resizeBuffersPrimary, hcomp]

/-- Closed witness for C6 at resolution 800×600. -/
theorem resizeBuffersPrimary_noop_on_same_resolution_witness :
    resizeBuffersPrimary ⟨800, 600⟩ ⟨800, 600⟩ = ([], true) ∧
    ∀ res2 : Extent2D, res2 ≠ ⟨800, 600⟩ →
      (resizeBuffersPrimary ⟨800, 600⟩ res2).1 ≠ [] ∧
      (resizeBuffersPrimary ⟨800, 600⟩ res2).2 = true :=
  resizeBuffersPrimary_noop_on_same_resolution ⟨800, 600⟩ ⟨800, 600⟩ rfl

/-- C7: `Present` records, in order, the command-buffer-free submit that
waits on image-available and signals render-finished, the present of the
current image index gated on render-finished, and the acquire of the next
image; the stored index afterwards is the newly acquired one, so it names
the next frame's target, not the image just presented. -/
theorem present_acquire_ahead (presentImageIndex acquiredImageIndex : Nat) :
    (vkPresent presentImageIndex acquiredImageIndex).1 =
      [ .queueSubmit .imageAvailable VK_PIPELINE_STAGE_COLOR_ATTACHMENT_OUTPUT_BIT
          0 .renderFinished,
        .queuePresent .renderFinished presentImageIndex,
        .acquireNextImage .imageAvailable ] ∧
    (vkPresent presentImageIndex acquiredImageIndex).2 = acquiredImageIndex ∧
    (acquiredImageIndex ≠ presentImageIndex →
      (vkPresent presentImageIndex acquiredImageIndex).2 ≠ presentImageIndex) :=
  ⟨rfl, rfl, fun h => h⟩

/-- Closed witness for C7: presenting image 0 and acquiring image 1. -/
theorem present_acquire_ahead_witness :
    (vkPresent 0 1).1 =
      [ .queueSubmit .imageAvailable VK_PIPELINE_STAGE_COLOR_ATTACHMENT_OUTPUT_BIT
          0 .renderFinished,
        .queuePresent .renderFinished 0,
        .acquireNextImage .imageAvailable ] ∧
    (vkPresent 0 1).2 = 1 ∧
    ((1 : Nat) ≠ 0 → (vkPresent 0 1).2 ≠ 0) :=
  present_acquire_ahead 0 1

/-- C8: constructing a D3D12 compute PSO with a null compute shader fails
with the descriptive error and creates no native object; with a compute
shader present the native PSO is created (through the cache when one is
given). -/
theorem d3d12ComputePSO_requires_compute_shader
    (desc : ComputePipelineDescriptor) (pipelineCache : Option Nat) :
    (desc.computeShader = none →
      d3d12ComputePSOInit desc pipelineCache =
        .error "cannot create D3D compute pipeline without compute shader") ∧
    (desc.computeShader ≠ none →
      d3d12ComputePSOInit desc pipelineCache =
        .ok [.createNativePSO pipelineCache.isSome]) := by
  constructor
  · intro h
    simp [d3d12ComputePSOInit, h]
  · intro h
    rcases hsh : desc.computeShader with _ | sh
    · exact absurd hsh h
    · cases pipelineCache <;> simp [d3d12ComputePSOInit, hsh]

/-- Closed witness for C8: the null-shader rejection and the successful
construction, both without a cache. -/
theorem d3d12ComputePSO_requires_compute_shader_witness :
    d3d12ComputePSOInit ⟨none⟩ none =
      .error "cannot create D3D compute pipeline without compute shader" ∧
    d3d12ComputePSOInit ⟨some 7⟩ none = .ok [.createNativePSO false] :=
  ⟨(d3d12ComputePSO_requires_compute_shader ⟨none⟩ none).1 rfl,
   (d3d12ComputePSO_requires_compute_shader ⟨some 7⟩ none).2 (by simp)⟩

/-- C10: when the buffer has no memory region, or mapping fails,
`WriteBuffer` leaves the chunk's content untouched and `ReadBuffer`
leaves the caller's output untouched; neither raises an error. -/
theorem write_read_buffer_silent_noop (chunk : VKDeviceMemory)
    (buffer : VKDeviceBuffer) (data : Nat → Nat) (size offset : Nat)
    (h : buffer.memoryRegion = none ∨ chunk.mappable = false) :
    vkWriteBuffer chunk buffer data size offset = chunk ∧
    vkReadBuffer chunk buffer data size offset = data := by
  rcases h with h | h
  · constructor <;> simp [vkWriteBuffer, vkReadBuffer, h]
  · rcases hr : buffer.memoryRegion with _ | region <;>
      constructor <;> simp [vkWriteBuffer, vkReadBuffer, hr, h]

/-- Closed witness for C10: a buffer without a memory region against a
mappable chunk. -/
theorem write_read_buffer_silent_noop_witness :
    vkWriteBuffer ⟨true, fun _ => 0⟩ ⟨none⟩ (fun _ => 1) 4 0 = ⟨true, fun _ => 0⟩ ∧
    vkReadBuffer ⟨true, fun _ => 0⟩ ⟨none⟩ (fun _ => 1) 4 0 = (fun _ => 1) :=
  write_read_buffer_silent_noop ⟨true, fun _ => 0⟩ ⟨none⟩ (fun _ => 1) 4 0
    (Or.inl rfl)

end LLGL
